import Mathlib

/-!
Verification development for the review-scraper application (`src/app.py`).

The two pieces of logic embedded here are:

* `get_reviews` (app.py lines 46-130): the bounded paginated fetcher.  It
  issues a first page request, then loops while `page_count < max_pages`
  (`max_pages = ceil(target_count / 10)`), breaking on an API error, on an
  empty page, on reaching `target_count` accumulated records, or on a missing
  continuation token; each continuation request is the previous `params`
  dictionary with `next_page_token` overwritten.  It finally returns
  `reviews_data[:target_count]`.

* `analyze_with_gemini` (app.py lines 132-189): per-entity negative-review
  selection (`df[df['rating'] <= 3]`, pandas semantics: a missing rating
  compares false), truncation to 60, prompt-context assembly, template choice
  by entity count, and the try/except around the model call that converts a
  raised exception into the string `"AI Error: " ++ e`.

The external services are modelled as function parameters: the SerpApi client
is a function from the request parameter dictionary to either a raised
exception (`Except.error`) or a decoded response dictionary, and the Gemini
call is a function from a prompt to either a raised exception or a text.
The fetcher is instrumented with a trace of the page requests it issues and
the page responses it examines, so that request-counting and token-sourcing
claims can be stated.
-/

namespace ReviewScraper

/-- A raw review object as decoded from a SerpApi page response: the loop body
at app.py lines 97-103 reads `rating`, `snippet`, `date` and `user.name`, each
of which may be absent. -/
structure RawReview where
  rating : Option Int
  snippet : Option String
  date : Option String
  user_name : Option String
deriving DecidableEq

/-- One row of `reviews_data` as built at app.py lines 98-103:
`{"rating": review.get("rating"), "text": review.get("snippet", ""),
  "date": review.get("date"), "author": review.get("user", {}).get("name")}`. -/
structure Review where
  rating : Option Int
  text : String
  date : Option String
  author : Option String
deriving DecidableEq

/-- app.py lines 97-103: the dict built from one raw review. -/
def extract (r : RawReview) : Review :=
  { rating := r.rating
    text := r.snippet.getD ""
    date := r.date
    author := r.user_name }

/-- The `params` dictionary passed to `GoogleSearch` (app.py lines 57-65 and
119).  `engine` and `sort_by` are constant strings in the source and are
omitted; `next_page_token` is absent (`none`) on the initial request. -/
structure Params where
  place_id : String
  api_key : String
  gl : String
  hl : String
  next_page_token : Option String
deriving DecidableEq

instance : Inhabited Params :=
  ⟨{ place_id := "", api_key := "", gl := "", hl := "", next_page_token := none }⟩

/-- A decoded SerpApi response dictionary, restricted to the keys the loop
reads: `error` (app.py line 86), `reviews` (line 90, default `[]`), and
`serpapi_pagination.next_page_token` (lines 110-113; `none` covers both a
missing pagination block and a missing token). -/
structure PageResponse where
  error : Option String
  reviews : List RawReview
  next_page_token : Option String
deriving DecidableEq

instance : Inhabited PageResponse :=
  ⟨{ error := none, reviews := [], next_page_token := none }⟩

/-- The SerpApi client: `GoogleSearch(params).get_dict()`.  `Except.error`
models a raised exception, `Except.ok` a decoded response. -/
def Source : Type := Params → Except String PageResponse

/-- How `get_reviews` ends: `returned` models reaching line 130 and returning
`pd.DataFrame(reviews_data[:target_count])`; `raised` models an exception
escaping from a continuation-page `get_dict()` call (app.py lines 124-125 are
not inside any try/except, unlike the initial request at lines 67-72). -/
inductive FetchFinal where
  | returned (df : List Review)
  | raised (e : String)
deriving DecidableEq

/-- The instrumented outcome of one `get_reviews` call: the final result, the
trace of page requests issued (in order, the initial request first), the trace
of page responses the loop examined (in order), and the final value of the
`reviews_data` accumulator. -/
structure FetchOutcome where
  final : FetchFinal
  requests : List Params
  responses : List PageResponse
  accumulated : List Review
deriving DecidableEq

/-- The `while page_count < max_pages` loop of app.py lines 78-125, with
`fuel = max_pages - page_count`.  Each iteration examines `results` (appending
it to the response trace), breaks on an API error (line 86), on an empty
review list (line 93), on `len(reviews_data) >= target_count` (line 106) or on
a missing continuation token (lines 110-113); otherwise it overwrites
`params["next_page_token"]` (line 119), keeps `place_id` in `params`
(lines 121-122), issues the next request (lines 124-125) and repeats.  Every
break reaches line 130, `return pd.DataFrame(reviews_data[:target_count])`. -/
def get_reviews_loop (source : Source) (target_count : Nat) (params : Params)
    (results : PageResponse) (reviews_data : List Review) (fuel : Nat)
    (reqs : List Params) (resps : List PageResponse) : FetchOutcome :=
  match fuel with
  | 0 =>
      { final := .returned (reviews_data.take target_count)
        requests := reqs, responses := resps, accumulated := reviews_data }
  | fuel + 1 =>
      let resps := resps ++ [results]
      if results.error.isSome then
        { final := .returned (reviews_data.take target_count)
          requests := reqs, responses := resps, accumulated := reviews_data }
      else
        let new_reviews := results.reviews
        if new_reviews.isEmpty then
          { final := .returned (reviews_data.take target_count)
            requests := reqs, responses := resps, accumulated := reviews_data }
        else
          let reviews_data := reviews_data ++ new_reviews.map extract
          if target_count ≤ reviews_data.length then
            { final := .returned (reviews_data.take target_count)
              requests := reqs, responses := resps, accumulated := reviews_data }
          else
            match results.next_page_token with
            | none =>
                { final := .returned (reviews_data.take target_count)
                  requests := reqs, responses := resps, accumulated := reviews_data }
            | some tok =>
                let params := { params with next_page_token := some tok }
                match source params with
                | .error e =>
                    { final := .raised e
                      requests := reqs ++ [params], responses := resps
                      accumulated := reviews_data }
                | .ok results2 =>
                    get_reviews_loop source target_count params results2
                      reviews_data fuel (reqs ++ [params]) resps

/-- The initial `params` dictionary of app.py lines 57-65 (no
`next_page_token`, `num` purposefully omitted). -/
def initialParams (place_id api_key country_code lang_code : String) : Params :=
  { place_id := place_id, api_key := api_key, gl := country_code,
    hl := lang_code, next_page_token := none }

/-- `get_reviews(place_id, api_key, country_code, lang_code, target_count)` of
app.py lines 46-130.  `max_pages = math.ceil(target_count / 10)` (line 54) is
`(target_count + 9) / 10` in natural-number arithmetic.  The initial request
(lines 67-72) is wrapped in try/except: a raised exception is caught and an
empty DataFrame returned. -/
def get_reviews (source : Source) (place_id api_key country_code lang_code : String)
    (target_count : Nat) : FetchOutcome :=
  let max_pages := (target_count + 9) / 10
  let params := initialParams place_id api_key country_code lang_code
  match source params with
  | .error _ =>
      { final := .returned [], requests := [params], responses := [],
        accumulated := [] }
  | .ok results =>
      get_reviews_loop source target_count params results [] max_pages [params] []

/-- pandas semantics of `df['rating'] <= 3` on one row (app.py line 143): a
missing rating is NaN, and a NaN comparison is false, so the row is dropped. -/
def ratingLe3 (r : Review) : Bool :=
  match r.rating with
  | some v => decide (v ≤ 3)
  | none => false

/-- app.py line 143: `neg_reviews = df[df['rating'] <= 3]['text'].tolist()`. -/
def neg_reviews (df : List Review) : List String :=
  (df.filter ratingLe3).map Review.text

/-- app.py line 150: `neg_reviews[:60]`, the up-to-60 negative review texts
actually rendered into the prompt. -/
def used_reviews (df : List Review) : List String :=
  (neg_reviews df).take 60

/-- app.py lines 145-151: one entity's section of `prompt_context` — the
placeholder section when the negative subset is empty, otherwise the header
followed by the first 60 negative texts as bulleted lines. -/
def entity_section (name : String) (df : List Review) : String :=
  if (neg_reviews df).isEmpty then
    "\n\n--- REVIEWS FOR " ++ name.toUpper ++ " ---\n(No negative reviews found)\n"
  else
    let formatted_reviews :=
      String.intercalate "\n" ((used_reviews df).map (fun r => "- " ++ r))
    "\n\n--- REVIEWS FOR " ++ name.toUpper ++ " ---\n" ++ formatted_reviews ++ "\n"

/-- app.py lines 140-151: `prompt_context` starts as `""` and the loop over
`data_dict.items()` appends one section per entity.  The Python dict is
insertion-ordered; it is embedded as an association list. -/
def prompt_context (data_dict : List (String × List Review)) : String :=
  data_dict.foldl (fun acc p => acc ++ entity_section p.1 p.2) ""

/-- app.py lines 156-166: the competitor-mode prompt. -/
def competitor_prompt (data_dict : List (String × List Review))
    (lang_name : String) : String :=
  "\n        You are a Strategic Analyst. I have reviews for two companies.\n        The reviews are in "
    ++ lang_name ++ ". Please provide your analysis in " ++ lang_name
    ++ ".\n        \n        " ++ prompt_context data_dict
    ++ "\n        \n        Please provide a comparison report in Markdown.\n        1. **Top 5-10 Pain Points for "
    ++ (data_dict.map Prod.fst).getD 0 ""
    ++ ":** List the most critical recurring issues.\n        2. **Top 5-10 Pain Points for "
    ++ (data_dict.map Prod.fst).getD 1 ""
    ++ ":** List the most critical recurring issues.\n        3. **Comparison Verdict:** What is the main difference in why customers are unhappy?\n        "

/-- app.py lines 169-183: the single-entity prompt. -/
def single_prompt (data_dict : List (String × List Review))
    (lang_name : String) : String :=
  "\n        You are a CX Analyst. Analyze these negative reviews.\n        The reviews are in "
    ++ lang_name ++ ". Please provide your analysis in " ++ lang_name
    ++ ".\n        \n        " ++ prompt_context data_dict
    ++ "\n        \n        Identify the **Top 5 to 10** distinct customer pain points.\n        Do not list fewer than 5 unless the data is extremely sparse.\n        \n        For each pain point, provide:\n        1. **Title**: Short and punchy.\n        2. **Frequency**: Estimate if this is High, Medium, or Low frequency.\n        3. **Explanation**: A brief explanation of the issue.\n        4. **Quote**: A direct quote from one of the reviews.\n        "

/-- app.py lines 154-183: template selection, `if len(data_dict) > 1`. -/
def build_prompt (data_dict : List (String × List Review))
    (lang_name : String) : String :=
  if 1 < data_dict.length then competitor_prompt data_dict lang_name
  else single_prompt data_dict lang_name

/-- app.py lines 132-189: `analyze_with_gemini(data_dict, lang_name)`.  The
Gemini client `model.generate_content` is a parameter; `Except.error` models a
raised exception, which the try/except at lines 185-189 converts into the
string `f"AI Error: {str(e)}"`. -/
def analyze_with_gemini (generate_content : String → Except String String)
    (data_dict : List (String × List Review)) (lang_name : String) : String :=
  match generate_content (build_prompt data_dict lang_name) with
  | .ok response => response
  | .error e => "AI Error: " ++ e

/-! ### A canonical model of the Review Source

The external SerpApi service is not part of the repository; for the claims
that quantify over "the records the source holds" we model it as the spec
describes it (section 6, and `pageSize` fixed to 10 as in the code comment at
app.py line 53): a source holding a list `recs` of records, serving the page
`recs[10*i : 10*i+10]` for page index `i`, with an opaque continuation token
present exactly while further records remain, and never signalling an error.
Tokens are opaque strings; `tokFor i` encodes page index `i` as a string of
length `i`, and a request's page index is recovered from its token. -/

/-- The opaque continuation token leading to page `i`. -/
def tokFor (i : Nat) : String := String.mk (List.replicate i 'x')

/-- The page index addressed by a request token: no token means the first
page. -/
def pageIndex (tok : Option String) : Nat :=
  match tok with
  | none => 0
  | some s => s.length

/-- Page `i` of the canonical source holding `recs`. -/
def canonical_page (recs : List RawReview) (i : Nat) : PageResponse :=
  { error := none
    reviews := (recs.drop (10 * i)).take 10
    next_page_token :=
      if 10 * (i + 1) < recs.length then some (tokFor (i + 1)) else none }

/-- The canonical error-free Review Source holding the records `recs`. -/
def canonicalSource (recs : List RawReview) : Source :=
  fun p => .ok (canonical_page recs (pageIndex p.next_page_token))

/-! ### Concrete sources used as witnesses -/

/-- A client whose every call raises an exception. -/
def failSource : Source := fun _ => .error "boom"

/-- A raw review with every field present. -/
def sampleRaw : RawReview :=
  { rating := some 1, snippet := some "bad", date := some "2024-01-01",
    user_name := some "a" }

/-- A response holding five reviews and a continuation token: a page shorter
than the page size that still announces a next page. -/
def shortPage : PageResponse :=
  { error := none, reviews := List.replicate 5 sampleRaw,
    next_page_token := some "t" }

/-- A client that always serves `shortPage`. -/
def shortPageSource : Source := fun _ => .ok shortPage

/-! ### Theorems -/

/-- C10: if the initial page request itself raises an exception, `get_reviews`
catches it (app.py lines 67-72) and returns an empty result, and the initial
request is the only page request ever issued. -/
theorem c10_initial_raise_returns_empty (source : Source)
    (pid key gl hl : String) (target : Nat) (e : String)
    (h : source (initialParams pid key gl hl) = .error e) :
    (get_reviews source pid key gl hl target).final = FetchFinal.returned []
    ∧ (get_reviews source pid key gl hl target).requests
        = [initialParams pid key gl hl] := by
  simp [get_reviews, h]

/-- C10 witness: the always-raising client at concrete arguments. -/
theorem c10_initial_raise_returns_empty_witness :
    (get_reviews failSource "p" "k" "gb" "en" 30).final = FetchFinal.returned []
    ∧ (get_reviews failSource "p" "k" "gb" "en" 30).requests
        = [initialParams "p" "k" "gb" "en"] :=
  c10_initial_raise_returns_empty failSource "p" "k" "gb" "en" 30 "boom" rfl

/-- C9: if the Gemini call raises, `analyze_with_gemini` catches the exception
(app.py lines 185-189) and returns the displayable string
`"AI Error: " ++ e` instead of propagating it. -/
theorem c9_ai_failure_becomes_string (gen : String → Except String String)
    (d : List (String × List Review)) (lang e : String)
    (h : gen (build_prompt d lang) = .error e) :
    analyze_with_gemini gen d lang = "AI Error: " ++ e := by
  simp [analyze_with_gemini, h]

/-- C9 witness: a client raising a quota error at concrete arguments. -/
theorem c9_ai_failure_becomes_string_witness :
    analyze_with_gemini (fun _ => .error "quota") [("Main Business", [])] "English"
      = "AI Error: quota" :=
  c9_ai_failure_becomes_string (fun _ => .error "quota")
    [("Main Business", [])] "English" "quota" rfl

/-- C3: a page response with zero records terminates the loop at app.py
lines 93-94 immediately after being examined — no further page request is
issued, whatever continuation token the response carries — and the records
accumulated from prior pages are returned (truncated at the target, which is
the unconditional `[:target_count]` of line 130; when the accumulator is below
the target they are returned in full). -/
theorem c3_empty_page_terminates (source : Source) (target : Nat)
    (params : Params) (results : PageResponse) (acc : List Review)
    (fuel : Nat) (reqs : List Params) (resps : List PageResponse)
    (h : results.reviews = []) :
    (get_reviews_loop source target params results acc (fuel + 1) reqs resps).requests
        = reqs
    ∧ (get_reviews_loop source target params results acc (fuel + 1) reqs resps).responses
        = resps ++ [results]
    ∧ (get_reviews_loop source target params results acc (fuel + 1) reqs resps).final
        = FetchFinal.returned (acc.take target)
    ∧ (acc.length ≤ target →
        (get_reviews_loop source target params results acc (fuel + 1) reqs resps).final
          = FetchFinal.returned acc) := by
  by_cases he : results.error.isSome <;>
    simp [get_reviews_loop, h, he, List.take_of_length_le]

/-- C3 witness: an empty page that still carries a continuation token, after
one prior page of two records. -/
theorem c3_empty_page_terminates_witness :
    (get_reviews_loop shortPageSource 10 default
        { error := none, reviews := [], next_page_token := some "t2" }
        [extract sampleRaw, extract sampleRaw] 3 [default] []).requests
      = [default]
    ∧ (get_reviews_loop shortPageSource 10 default
        { error := none, reviews := [], next_page_token := some "t2" }
        [extract sampleRaw, extract sampleRaw] 3 [default] []).final
      = FetchFinal.returned [extract sampleRaw, extract sampleRaw] := by
  have h := c3_empty_page_terminates shortPageSource 10 default
    { error := none, reviews := [], next_page_token := some "t2" }
    [extract sampleRaw, extract sampleRaw] 2 [default] [] rfl
  exact ⟨h.1, h.2.2.2 (by decide)⟩

/-- C4: a page response that signals an error terminates the loop at app.py
lines 86-88 immediately — no further page request is issued, hence no retry —
and the records accumulated from the pages before the error are still
returned (truncated at the target by line 130; in full when the accumulator is
below the target). -/
theorem c4_error_page_preserves_partial (source : Source) (target : Nat)
    (params : Params) (results : PageResponse) (acc : List Review)
    (fuel : Nat) (reqs : List Params) (resps : List PageResponse) (e : String)
    (h : results.error = some e) :
    (get_reviews_loop source target params results acc (fuel + 1) reqs resps).requests
        = reqs
    ∧ (get_reviews_loop source target params results acc (fuel + 1) reqs resps).final
        = FetchFinal.returned (acc.take target)
    ∧ (acc.length ≤ target →
        (get_reviews_loop source target params results acc (fuel + 1) reqs resps).final
          = FetchFinal.returned acc) := by
  simp [get_reviews_loop, h, List.take_of_length_le]

/-- C4 witness: an errored response arriving after one page of three records
was accumulated. -/
theorem c4_error_page_preserves_partial_witness :
    (get_reviews_loop shortPageSource 10 default
        { error := some "rate limited", reviews := List.replicate 5 sampleRaw,
          next_page_token := some "t3" }
        [extract sampleRaw, extract sampleRaw, extract sampleRaw] 4 [default] []).requests
      = [default]
    ∧ (get_reviews_loop shortPageSource 10 default
        { error := some "rate limited", reviews := List.replicate 5 sampleRaw,
          next_page_token := some "t3" }
        [extract sampleRaw, extract sampleRaw, extract sampleRaw] 4 [default] []).final
      = FetchFinal.returned [extract sampleRaw, extract sampleRaw, extract sampleRaw] := by
  have h := c4_error_page_preserves_partial shortPageSource 10 default
    { error := some "rate limited", reviews := List.replicate 5 sampleRaw,
      next_page_token := some "t3" }
    [extract sampleRaw, extract sampleRaw, extract sampleRaw] 3 [default] []
    "rate limited" rfl
  exact ⟨h.1, h.2.2 (by decide)⟩

/-- Whenever the loop returns a DataFrame (rather than letting a continuation
exception escape), that DataFrame is the final accumulator truncated to the
target: every break reaches `reviews_data[:target_count]` at app.py
line 130. -/
theorem get_reviews_loop_final_take (source : Source) (target : Nat) :
    ∀ (fuel : Nat) (params : Params) (results : PageResponse)
      (acc : List Review) (reqs : List Params) (resps : List PageResponse)
      (l : List Review),
      (get_reviews_loop source target params results acc fuel reqs resps).final
        = FetchFinal.returned l →
      l = (get_reviews_loop source target params results acc fuel reqs
            resps).accumulated.take target := by
  intro fuel
  induction fuel with
  | zero =>
      intro params results acc reqs resps l h
      simp only [get_reviews_loop, FetchFinal.returned.injEq] at h
      simp only [get_reviews_loop]
      exact h.symm
  | succ n ih =>
      intro params results acc reqs resps l h
      by_cases he : results.error.isSome = true
      · simp only [get_reviews_loop, he, if_true, FetchFinal.returned.injEq] at h ⊢
        exact h.symm
      · by_cases hemp : results.reviews.isEmpty = true
        · simp only [get_reviews_loop, he, hemp, if_true, if_false,
            FetchFinal.returned.injEq] at h ⊢
          simp_all
        · by_cases hlen : target ≤ (acc ++ results.reviews.map extract).length
          · simp only [get_reviews_loop, he, hemp, hlen] at h ⊢
            simp_all
          · rcases ht : results.next_page_token with _ | tok
            · simp only [get_reviews_loop, he, hemp, hlen, ht] at h ⊢
              simp_all
            · rcases hs : source { params with next_page_token := some tok }
                with e2 | results2
              · simp only [get_reviews_loop, he, hemp, hlen, ht, hs] at h
                simp_all
              · simp only [get_reviews_loop, he, hemp, hlen, ht, hs] at h ⊢
                exact ih _ _ _ _ _ _ h

/-- C5: whatever the source does, when `get_reviews` returns a DataFrame its
length never exceeds `target_count`; the DataFrame is exactly the first
`target_count` accumulated records in arrival order (`reviews_data[:target_count]`,
app.py line 130), so when the accumulator reached or passed the target the
excess is discarded and exactly `target_count` records are returned. -/
theorem c5_result_never_exceeds_target (source : Source)
    (pid key gl hl : String) (target : Nat) (l : List Review)
    (h : (get_reviews source pid key gl hl target).final = FetchFinal.returned l) :
    l.length ≤ target
    ∧ l = (get_reviews source pid key gl hl target).accumulated.take target
    ∧ (target ≤ (get_reviews source pid key gl hl target).accumulated.length →
        l.length = target) := by
  have hl : l = (get_reviews source pid key gl hl target).accumulated.take target := by
    revert h
    simp only [get_reviews]
    rcases source (initialParams pid key gl hl) with e | results
    · intro h
      simp only [FetchFinal.returned.injEq] at h
      simp [h.symm]
    · exact get_reviews_loop_final_take source target _ _ _ _ _ _ l
  refine ⟨?_, hl, ?_⟩
  · rw [hl, List.length_take]
    exact min_le_left _ _
  · intro hle
    rw [hl, List.length_take]
    omega

/-- C5 witness: the constant short-page source at target 10 returns a
DataFrame, and the conclusions hold there. -/
theorem c5_result_never_exceeds_target_witness :
    (get_reviews shortPageSource "p" "k" "gb" "en" 10).final
        = FetchFinal.returned ((get_reviews shortPageSource "p" "k" "gb" "en"
            10).accumulated.take 10)
    ∧ ((get_reviews shortPageSource "p" "k" "gb" "en" 10).accumulated.take 10).length
        ≤ 10 := by
  have h := c5_result_never_exceeds_target shortPageSource "p" "k" "gb" "en" 10
    ((get_reviews shortPageSource "p" "k" "gb" "en" 10).accumulated.take 10)
    (by decide)
  exact ⟨by decide, h.1⟩

/-- Each loop iteration issues at most one further page request, so the
request trace grows by at most `fuel` entries. -/
theorem get_reviews_loop_requests_length (source : Source) (target : Nat) :
    ∀ (fuel : Nat) (params : Params) (results : PageResponse)
      (acc : List Review) (reqs : List Params) (resps : List PageResponse),
      (get_reviews_loop source target params results acc fuel reqs
          resps).requests.length
        ≤ reqs.length + fuel := by
  intro fuel
  induction fuel with
  | zero =>
      intro params results acc reqs resps
      simp [get_reviews_loop]
  | succ n ih =>
      intro params results acc reqs resps
      by_cases he : results.error.isSome = true
      · simp [get_reviews_loop, he]
      · by_cases hemp : results.reviews.isEmpty = true
        · simp [get_reviews_loop, he, hemp]
        · by_cases hlen : target ≤ (acc ++ results.reviews.map extract).length
          · simp only [get_reviews_loop, he, hemp, hlen]
            simp
          · rcases ht : results.next_page_token with _ | tok
            · simp only [get_reviews_loop, he, hemp, hlen, ht]
              simp
            · rcases hs : source { params with next_page_token := some tok }
                with e2 | results2
              · simp only [get_reviews_loop, he, hemp, hlen, ht, hs]
                simp
              · simp only [get_reviews_loop, he, hemp, hlen, ht, hs,
                  Bool.false_eq_true, if_false]
                have h := ih { params with next_page_token := some tok } results2
                  (acc ++ results.reviews.map extract)
                  (reqs ++ [{ params with next_page_token := some tok }])
                  (resps ++ [results])
                simp only [List.length_append, List.length_cons,
                  List.length_nil] at h
                omega

/-- C2 counterexample: with a target of 10 the claimed bound is
`ceil(10 / 10) = 1` page request, but against a source whose pages hold five
records and always carry a continuation token, `get_reviews` issues two page
requests: the loop increments `page_count` and issues the continuation
request (app.py lines 115-125) before re-testing `page_count < max_pages`, so
the last response is requested and then never examined. -/
theorem c2_counterexample_two_requests :
    ¬ ((get_reviews shortPageSource "p" "k" "gb" "en" 10).requests.length
        ≤ (10 + 9) / 10) := by
  decide

/-- C2 (amended): over any source behaviour, `get_reviews` issues at most
`ceil(target_count / 10) + 1` page requests — the initial request plus at
most one continuation request per loop iteration, of which there are at most
`max_pages = ceil(target_count / 10)` (app.py lines 54 and 78). -/
theorem c2_requests_at_most_ceil_succ (source : Source)
    (pid key gl hl : String) (target : Nat) :
    (get_reviews source pid key gl hl target).requests.length
      ≤ (target + 9) / 10 + 1 := by
  simp only [get_reviews]
  rcases source (initialParams pid key gl hl) with e | results
  · simp
  · show (get_reviews_loop source target (initialParams pid key gl hl) results
        [] ((target + 9) / 10) [initialParams pid key gl hl] []).requests.length
      ≤ (target + 9) / 10 + 1
    have h := get_reviews_loop_requests_length source target ((target + 9) / 10)
      (initialParams pid key gl hl) results [] [initialParams pid key gl hl] []
    simp only [List.length_cons, List.length_nil] at h
    omega

/-- `getD` at the length of the left list of an append with a singleton. -/
theorem getD_concat_length {α : Type} (l : List α) (x d : α) :
    (l ++ [x]).getD l.length d = x := by
  simp [List.getD_eq_getElem?_getD]

/-- The filter fields a page request must share with the fetch request: the
entity identifier (`place_id`), region (`gl`) and language (`hl`) that
app.py lines 57-65 put into `params` and lines 117-122 deliberately keep
there. -/
def sameFilters (p : Params) (pid gl hl : String) : Prop :=
  p.place_id = pid ∧ p.gl = gl ∧ p.hl = hl

/-- Request `i + 1` of the trace carries exactly the continuation token of
response `i` — the response to the immediately preceding request. -/
def tokensChained (reqs : List Params) (resps : List PageResponse) : Prop :=
  ∀ i : Nat, i + 1 < reqs.length →
    i < resps.length ∧
    (reqs.getD (i + 1) default).next_page_token
      = (resps.getD i default).next_page_token

/-- Appending a response leaves an established chain intact. -/
theorem tokensChained_append_resp (reqs : List Params)
    (resps : List PageResponse) (r : PageResponse)
    (h : tokensChained reqs resps) : tokensChained reqs (resps ++ [r]) := by
  intro i hi
  obtain ⟨h1, h2⟩ := h i hi
  refine ⟨by simp [Nat.lt_succ_of_lt h1], ?_⟩
  rw [List.getD_append _ _ _ _ h1]
  exact h2

/-- Appending one request and one response extends the chain, provided the
new request carries the new response's predecessor token. -/
theorem tokensChained_extend (reqs : List Params) (resps : List PageResponse)
    (p : Params) (r : PageResponse)
    (hlen : reqs.length = resps.length + 1)
    (hchain : tokensChained reqs resps)
    (htok : p.next_page_token = r.next_page_token) :
    tokensChained (reqs ++ [p]) (resps ++ [r]) := by
  intro i hi
  simp only [List.length_append, List.length_cons, List.length_nil] at hi
  by_cases hcase : i + 1 < reqs.length
  · obtain ⟨h1, h2⟩ := hchain i hcase
    refine ⟨by simp; omega, ?_⟩
    rw [List.getD_append _ _ _ _ hcase, List.getD_append _ _ _ _ h1]
    exact h2
  · have hi1 : i + 1 = reqs.length := by omega
    have hieq : i = resps.length := by omega
    have e1 : (reqs ++ [p]).getD (i + 1) default = p := by
      rw [hi1]; exact getD_concat_length reqs p default
    have e2 : (resps ++ [r]).getD i default = r := by
      rw [hieq]; exact getD_concat_length resps r default
    refine ⟨by simp; omega, ?_⟩
    rw [e1, e2]
    exact htok

/-- Loop invariant for the request trace: all issued requests keep the fetch
request's filter fields, the trace only grows, and each continuation request's
token is taken from the immediately preceding response. -/
theorem get_reviews_loop_token_chain (source : Source) (target : Nat)
    (pid gl hl : String) :
    ∀ (fuel : Nat) (params : Params) (results : PageResponse)
      (acc : List Review) (reqs : List Params) (resps : List PageResponse),
      (∀ p ∈ reqs, sameFilters p pid gl hl) →
      sameFilters params pid gl hl →
      reqs.length = resps.length + 1 →
      tokensChained reqs resps →
      (∀ p ∈ (get_reviews_loop source target params results acc fuel reqs
          resps).requests, sameFilters p pid gl hl)
      ∧ (∃ rest, (get_reviews_loop source target params results acc fuel reqs
          resps).requests = reqs ++ rest)
      ∧ tokensChained
          (get_reviews_loop source target params results acc fuel reqs
            resps).requests
          (get_reviews_loop source target params results acc fuel reqs
            resps).responses := by
  intro fuel
  induction fuel with
  | zero =>
      intro params results acc reqs resps hreqs hparams hlen hchain
      simp only [get_reviews_loop]
      exact ⟨hreqs, ⟨[], by simp⟩, by
        intro i hi
        exact (hchain i hi).imp (fun h => by omega) id⟩
  | succ n ih =>
      intro params results acc reqs resps hreqs hparams hlen hchain
      by_cases he : results.error.isSome = true
      · simp only [get_reviews_loop, he, if_true]
        exact ⟨hreqs, ⟨[], by simp⟩, tokensChained_append_resp _ _ _ hchain⟩
      · by_cases hemp : results.reviews.isEmpty = true
        · simp only [get_reviews_loop, he, hemp, Bool.false_eq_true, if_false,
            if_true]
          exact ⟨hreqs, ⟨[], by simp⟩, tokensChained_append_resp _ _ _ hchain⟩
        · by_cases hlen2 : target ≤ (acc ++ results.reviews.map extract).length
          · simp only [get_reviews_loop, he, hemp, hlen2, Bool.false_eq_true,
              if_false, if_true]
            exact ⟨hreqs, ⟨[], by simp⟩, tokensChained_append_resp _ _ _ hchain⟩
          · rcases ht : results.next_page_token with _ | tok
            · simp only [get_reviews_loop, he, hemp, hlen2, ht,
                Bool.false_eq_true, if_false]
              exact ⟨hreqs, ⟨[], by simp⟩,
                tokensChained_append_resp _ _ _ hchain⟩
            · have hfields : sameFilters { params with next_page_token := some tok }
                  pid gl hl := hparams
              have hreqs2 : ∀ p ∈ reqs ++ [{ params with next_page_token := some tok }],
                  sameFilters p pid gl hl := by
                intro p hp
                rcases List.mem_append.mp hp with h | h
                · exact hreqs p h
                · simpa using List.mem_singleton.mp h ▸ hfields
              have hchain2 : tokensChained
                  (reqs ++ [{ params with next_page_token := some tok }])
                  (resps ++ [results]) :=
                tokensChained_extend reqs resps _ results hlen hchain
                  (by simpa using ht.symm)
              rcases hs : source { params with next_page_token := some tok }
                with e2 | results2
              · simp only [get_reviews_loop, he, hemp, hlen2, ht, hs,
                  Bool.false_eq_true, if_false]
                exact ⟨hreqs2, ⟨[{ params with next_page_token := some tok }],
                  rfl⟩, hchain2⟩
              · simp only [get_reviews_loop, he, hemp, hlen2, ht, hs,
                  Bool.false_eq_true, if_false]
                have hrec := ih { params with next_page_token := some tok }
                  results2 (acc ++ results.reviews.map extract)
                  (reqs ++ [{ params with next_page_token := some tok }])
                  (resps ++ [results]) hreqs2 hfields
                  (by simp [hlen]) hchain2
                refine ⟨hrec.1, ?_, hrec.2.2⟩
                obtain ⟨rest, hrest⟩ := hrec.2.1
                exact ⟨{ params with next_page_token := some tok } :: rest,
                  by simpa using hrest⟩

/-- C6: every page request `get_reviews` issues carries the original entity
identifier, region and language filters, the trace of requests begins with
the initial token-free request, and every continuation request carries
exactly the continuation token of the immediately preceding page's response
(app.py lines 117-125).  Since all requests of one fetch carry that fetch's
own `place_id`, and the tokens a fetch uses come only from its own preceding
responses, a token obtained while fetching one entity is never used in a
request for a different entity. -/
theorem c6_token_from_preceding_response (source : Source)
    (pid key gl hl : String) (target : Nat) :
    (∀ p ∈ (get_reviews source pid key gl hl target).requests,
        sameFilters p pid gl hl)
    ∧ (get_reviews source pid key gl hl target).requests.getD 0 default
        = initialParams pid key gl hl
    ∧ tokensChained (get_reviews source pid key gl hl target).requests
        (get_reviews source pid key gl hl target).responses := by
  simp only [get_reviews]
  rcases source (initialParams pid key gl hl) with e | results
  · refine ⟨?_, rfl, ?_⟩
    · intro p hp
      simp only [List.mem_singleton] at hp
      subst hp
      exact ⟨rfl, rfl, rfl⟩
    · intro i hi
      simp at hi
  · show (∀ p ∈ (get_reviews_loop source target (initialParams pid key gl hl)
        results [] ((target + 9) / 10) [initialParams pid key gl hl]
        []).requests, sameFilters p pid gl hl)
      ∧ (get_reviews_loop source target (initialParams pid key gl hl) results
          [] ((target + 9) / 10) [initialParams pid key gl hl]
          []).requests.getD 0 default = initialParams pid key gl hl
      ∧ tokensChained (get_reviews_loop source target
            (initialParams pid key gl hl) results [] ((target + 9) / 10)
            [initialParams pid key gl hl] []).requests
          (get_reviews_loop source target (initialParams pid key gl hl)
            results [] ((target + 9) / 10) [initialParams pid key gl hl]
            []).responses
    have h := get_reviews_loop_token_chain source target pid gl hl
      ((target + 9) / 10) (initialParams pid key gl hl) results []
      [initialParams pid key gl hl] []
      (by intro p hp; simp only [List.mem_singleton] at hp; subst hp;
          exact ⟨rfl, rfl, rfl⟩)
      ⟨rfl, rfl, rfl⟩ (by simp)
      (by intro i hi; simp at hi)
    refine ⟨h.1, ?_, h.2.2⟩
    obtain ⟨rest, hrest⟩ := h.2.1
    rw [hrest]
    exact List.getD_append _ _ _ _ (by simp)

/-- C6 witness: against the constant short-page source at target 10 the
fetch issues two requests; the chain and filter facts hold there. -/
theorem c6_token_from_preceding_response_witness :
    tokensChained (get_reviews shortPageSource "p" "k" "gb" "en" 10).requests
      (get_reviews shortPageSource "p" "k" "gb" "en" 10).responses
    ∧ sameFilters
        ((get_reviews shortPageSource "p" "k" "gb" "en" 10).requests.getD 1
          default) "p" "gb" "en" := by
  have h := c6_token_from_preceding_response shortPageSource "p" "k" "gb" "en" 10
  refine ⟨h.2.2, h.1 _ ?_⟩
  decide

/-- A continuation token encodes its page index as its length. -/
theorem tokFor_length (i : Nat) : (tokFor i).length = i := by
  simp [tokFor, String.length]

/-- Main induction for C1: entering an iteration on page `i` of the canonical
source with the first `10 * i` records accumulated, fewer than the target so
far, and `fuel = max_pages - i`, the loop ends with exactly `target` records
returned. -/
theorem c1_loop (recs : List RawReview) (target : Nat)
    (htarget : target ≤ recs.length) :
    ∀ (fuel : Nat) (i : Nat) (params : Params) (reqs : List Params)
      (resps : List PageResponse),
      i + fuel = (target + 9) / 10 →
      10 * i < target →
      ∃ l,
        (get_reviews_loop (canonicalSource recs) target params
            (canonical_page recs i) ((recs.take (10 * i)).map extract) fuel
            reqs resps).final = FetchFinal.returned l
        ∧ l.length = target := by
  intro fuel
  induction fuel with
  | zero =>
      intro i params reqs resps hfuel hlt
      exfalso
      omega
  | succ n ih =>
      intro i params reqs resps hfuel hlt
      have hlen_i : 10 * i < recs.length := lt_of_lt_of_le hlt htarget
      have hrevlen : (canonical_page recs i).reviews.length
          = min 10 (recs.length - 10 * i) := by
        simp [canonical_page]
      have hpos : 0 < (canonical_page recs i).reviews.length := by
        rw [hrevlen]; omega
      have hemp : (canonical_page recs i).reviews.isEmpty = false := by
        rw [List.isEmpty_eq_false_iff_exists_mem]
        exact List.exists_mem_of_length_pos hpos
      have hErr : (canonical_page recs i).error.isSome = false := rfl
      have hacc : (recs.take (10 * i)).map extract
            ++ ((canonical_page recs i).reviews).map extract
          = (recs.take (10 * (i + 1))).map extract := by
        rw [← List.map_append]
        congr 1
        show recs.take (10 * i) ++ (recs.drop (10 * i)).take 10
          = recs.take (10 * (i + 1))
        have h : 10 * (i + 1) = 10 * i + 10 := by ring
        rw [h, List.take_add]
      have hacclen : ((recs.take (10 * (i + 1))).map extract).length
          = min (10 * (i + 1)) recs.length := by
        simp
      simp only [get_reviews_loop, hErr, hemp, Bool.false_eq_true, if_false,
        hacc]
      by_cases hreach : target ≤ ((recs.take (10 * (i + 1))).map extract).length
      · rw [if_pos hreach]
        refine ⟨_, rfl, ?_⟩
        rw [List.length_take]
        omega
      · rw [if_neg hreach]
        have h1 : ((recs.take (10 * (i + 1))).map extract).length < target := by
          omega
        have h2 : 10 * (i + 1) < recs.length := by omega
        have hlt2 : 10 * (i + 1) < target := by omega
        have htok : (canonical_page recs i).next_page_token
            = some (tokFor (i + 1)) := by
          simp [canonical_page, h2]
        rw [htok]
        have hsrc : canonicalSource recs
            { params with next_page_token := some (tokFor (i + 1)) }
            = .ok (canonical_page recs (i + 1)) := by
          simp [canonicalSource, pageIndex, tokFor_length]
        simp only [hsrc]
        exact ih (i + 1) _ _ _ (by omega) hlt2

/-- C1: against the canonical error-free source holding at least
`target_count` records, `get_reviews` returns a DataFrame of exactly
`target_count` records. -/
theorem c1_fetch_exactly_target (recs : List RawReview)
    (pid key gl hl : String) (target : Nat)
    (htarget : target ≤ recs.length) :
    ∃ l, (get_reviews (canonicalSource recs) pid key gl hl target).final
        = FetchFinal.returned l ∧ l.length = target := by
  by_cases h0 : target = 0
  · subst h0
    exact ⟨[], by simp [get_reviews, canonicalSource, get_reviews_loop], rfl⟩
  · have hsrc : canonicalSource recs (initialParams pid key gl hl)
        = .ok (canonical_page recs 0) := rfl
    simp only [get_reviews, hsrc]
    show ∃ l, (get_reviews_loop (canonicalSource recs) target
        (initialParams pid key gl hl) (canonical_page recs 0) []
        ((target + 9) / 10) [initialParams pid key gl hl] []).final
        = FetchFinal.returned l ∧ l.length = target
    have h := c1_loop recs target htarget ((target + 9) / 10) 0
      (initialParams pid key gl hl) [initialParams pid key gl hl] []
      (by omega) (by omega)
    simpa using h

/-- C1 witness: a source holding 12 records and a target of 10. -/
theorem c1_fetch_exactly_target_witness :
    ∃ l, (get_reviews (canonicalSource (List.replicate 12 sampleRaw)) "p" "k"
        "gb" "en" 10).final = FetchFinal.returned l ∧ l.length = 10 :=
  c1_fetch_exactly_target (List.replicate 12 sampleRaw) "p" "k" "gb" "en" 10
    (by simp)

/-- A five-star review: not negative, so it is excluded from every negative
subset. -/
def fiveStar : Review :=
  { rating := some 5, text := "great", date := none, author := none }

/-- The prompt-context fold only ever appends to its accumulator. -/
theorem foldl_sections_extend (d : List (String × List Review)) :
    ∀ acc : String, ∃ s : String,
      d.foldl (fun acc p => acc ++ entity_section p.1 p.2) acc = acc ++ s := by
  induction d with
  | nil =>
      intro acc
      exact ⟨"", by simp⟩
  | cons hd tl ih =>
      intro acc
      obtain ⟨s, hs⟩ := ih (acc ++ entity_section hd.1 hd.2)
      exact ⟨entity_section hd.1 hd.2 ++ s, by
        simp only [List.foldl_cons, hs, String.append_assoc]⟩

/-- Every entity of the mapping contributes its own section, in place, to the
fold that builds `prompt_context`. -/
theorem foldl_sections_contain (d : List (String × List Review)) :
    ∀ (acc name : String) (df : List Review), (name, df) ∈ d →
      ∃ pre post,
        d.foldl (fun acc p => acc ++ entity_section p.1 p.2) acc
          = pre ++ entity_section name df ++ post := by
  induction d with
  | nil =>
      intro acc name df h
      cases h
  | cons hd tl ih =>
      intro acc name df h
      rcases List.mem_cons.mp h with h | h
      · obtain ⟨s, hs⟩ := foldl_sections_extend tl
          (acc ++ entity_section hd.1 hd.2)
        refine ⟨acc, s, ?_⟩
        rw [List.foldl_cons, hs, ← h]
      · rw [List.foldl_cons]
        exact ih (acc ++ entity_section hd.1 hd.2) name df h

/-- C7: for every entity in the mapping, `prompt_context` contains that
entity's section — and when the entity's negative subset is empty the section
is the placeholder of app.py line 146 noting the absence of negative reviews,
not an omission. -/
theorem c7_section_for_every_entity (d : List (String × List Review))
    (name : String) (df : List Review) (h : (name, df) ∈ d) :
    (∃ pre post,
        prompt_context d = pre ++ entity_section name df ++ post)
    ∧ (neg_reviews df = [] →
        entity_section name df
          = "\n\n--- REVIEWS FOR " ++ name.toUpper
            ++ " ---\n(No negative reviews found)\n") := by
  constructor
  · exact foldl_sections_contain d "" name df h
  · intro hneg
    simp [entity_section, hneg]

/-- C7 witness: a two-entity mapping in which the first entity has no
negative reviews. -/
theorem c7_section_for_every_entity_witness :
    (∃ pre post,
        prompt_context
            [("Main Business", [fiveStar]),
              ("Competitor", [extract sampleRaw])]
          = pre ++ entity_section "Main Business" [fiveStar] ++ post)
    ∧ (neg_reviews [fiveStar] = [] →
        entity_section "Main Business" [fiveStar]
          = "\n\n--- REVIEWS FOR " ++ ("Main Business").toUpper
            ++ " ---\n(No negative reviews found)\n") :=
  c7_section_for_every_entity
    [("Main Business", [fiveStar]), ("Competitor", [extract sampleRaw])]
    "Main Business" [fiveStar] (by decide)

/-- The pandas row filter of app.py line 143 keeps exactly the rows whose
rating is present and at most 3. -/
theorem ratingLe3_iff (r : Review) :
    ratingLe3 r = true ↔ ∃ v, r.rating = some v ∧ v ≤ 3 := by
  cases hr : r.rating with
  | none => simp [ratingLe3, hr]
  | some v => simp [ratingLe3, hr]

/-- C8: for every fetch result, the negative subset rendered by
`analyze_with_gemini` consists exactly of the texts of the records with a
present rating at most 3 (an absent rating is excluded, NaN comparing false
in pandas); the rendered list is the subset's first 60 entries, a sublist of
the subset — so in the original order — and when the subset exceeds the cap
of 60 the rendered list has exactly 60 entries. -/
theorem c8_negative_subset_cap (df : List Review) :
    (∀ t : String, t ∈ neg_reviews df ↔
        ∃ r ∈ df, r.text = t ∧ ∃ v, r.rating = some v ∧ v ≤ 3)
    ∧ used_reviews df = (neg_reviews df).take 60
    ∧ List.Sublist (used_reviews df) (neg_reviews df)
    ∧ (60 < (neg_reviews df).length → (used_reviews df).length = 60) := by
  refine ⟨?_, rfl, by simpa using List.take_sublist 60 (neg_reviews df), ?_⟩
  · intro t
    simp only [neg_reviews, List.mem_map, List.mem_filter]
    constructor
    · rintro ⟨r, ⟨hmem, hrat⟩, htext⟩
      exact ⟨r, hmem, htext, (ratingLe3_iff r).mp hrat⟩
    · rintro ⟨r, hmem, htext, hrat⟩
      exact ⟨r, ⟨hmem, (ratingLe3_iff r).mpr hrat⟩, htext⟩
  · intro h
    simp only [used_reviews, List.length_take]
    omega

/-- C8 witness: a table of 61 one-star reviews — the membership
characterization at a concrete text, and the cap implication discharged. -/
theorem c8_negative_subset_cap_witness :
    ("bad" ∈ neg_reviews (List.replicate 61 (extract sampleRaw)) ↔
        ∃ r ∈ List.replicate 61 (extract sampleRaw),
          r.text = "bad" ∧ ∃ v, r.rating = some v ∧ v ≤ 3)
    ∧ (used_reviews (List.replicate 61 (extract sampleRaw))).length = 60 := by
  have h := c8_negative_subset_cap (List.replicate 61 (extract sampleRaw))
  exact ⟨h.1 "bad", h.2.2.2 (by decide)⟩

end ReviewScraper
